import Mathlib

/-!
Verification of the Agent Control Plane trace/replay core.

This file shallowly embeds the trace data model (`src/src/core/index.ts`),
the trace recorder (`src/unnamed/part_004`, class `TraceRecorder`), the
step inspector (`src/unnamed/part_003`, class `StepInspector`) and the
stateful replay controller (`src/src/core/replay-controller.ts`, class
`StatefulReplayController`) as pure Lean functions, and proves or refutes
the specified properties of those components.

JavaScript objects of dynamic type `unknown` (step `input` / `output`,
`memory` values, `metadata`) are modelled by a JSON value tree `Json`.
Environment-supplied quantities (wall-clock timestamps, random trace ids,
measured durations) are taken as explicit parameters of the operations
that read them in the source.
-/

set_option maxRecDepth 4000

namespace ACP

/-- JSON value tree: the model of a JavaScript runtime value of type
`unknown` (`null`, booleans, numbers, strings, arrays, objects).
Numbers are restricted to integers, which covers every numeric field the
core writes (`stepNumber`, `currentStep`, counters, durations). Objects
are insertion-ordered key/value lists, as JavaScript objects are. -/
inductive Json where
  | null : Json
  | bool : Bool → Json
  | num : Int → Json
  | str : String → Json
  | arr : List Json → Json
  | obj : List (String × Json) → Json

/-- `AgentState` from `src/src/core/index.ts` lines 432-444.
`memory: Record<string, unknown>` becomes an insertion-ordered
association list; optional TS fields become `Option`. -/
structure AgentState where
  taskId : String
  status : String
  currentStep : Int
  memory : List (String × Json)
  context : List String
  goal : String
  subGoals : List String
  completedSubGoals : List String
  lastOutput : Option String
  startTime : Option String
  endTime : Option String

/-- `createInitialState` from `src/src/core/index.ts` lines 446-458.
The `new Date().toISOString()` read is the explicit parameter `now`. -/
def createInitialState (taskId goal now : String) : AgentState :=
  { taskId := taskId
    status := "idle"
    currentStep := 0
    memory := []
    context := []
    goal := goal
    subGoals := []
    completedSubGoals := []
    lastOutput := none
    startTime := some now
    endTime := none }

/-- `BaseStep` from `src/src/core/index.ts` lines 351-360.  The typed
step variants (`LLMStep`, `ToolStep`, ...) only refine the `unknown`
payloads, so one structure with `Json` payloads covers all of them. -/
structure Step where
  stepNumber : Nat
  stepType : String
  timestamp : String
  input : Json
  output : Json
  stateSnapshot : AgentState
  duration : Option Nat
  metadata : Option Json

/-- `Trace.metadata` from `src/src/core/index.ts` lines 473-479. -/
structure TraceMetadata where
  agentVersion : String
  toolsUsed : List String
  totalLLMCalls : Nat
  totalToolCalls : Nat
  replayedFrom : Option String

/-- `Trace` from `src/src/core/index.ts` lines 464-480. -/
structure Trace where
  traceId : String
  agentId : String
  taskId : String
  startTime : String
  endTime : Option String
  status : String
  steps : List Step
  finalState : Option AgentState
  metadata : TraceMetadata

/-- `createTrace` from `src/src/core/index.ts` lines 482-497.  The
generated `trace_${Date.now()}_${random}` id and `new Date()` timestamp
are the explicit parameters `traceId` and `now`. -/
def createTrace (traceId now agentId taskId : String) : Trace :=
  { traceId := traceId
    agentId := agentId
    taskId := taskId
    startTime := now
    endTime := none
    status := "running"
    steps := []
    finalState := none
    metadata :=
      { agentVersion := "1.0.0"
        toolsUsed := []
        totalLLMCalls := 0
        totalToolCalls := 0
        replayedFrom := none } }

/-- Encode an optional field the way `JSON.stringify` treats it: an
`undefined` (`none`) field is omitted from the object entirely. -/
def optField (name : String) : Option Json → List (String × Json)
  | none => []
  | some j => [(name, j)]

/-- The JSON document `JSON.stringify` produces for an `AgentState`
object (fields in declaration/insertion order; `undefined` optionals
dropped). -/
def encodeAgentState (s : AgentState) : Json :=
  Json.obj
    ([("taskId", Json.str s.taskId),
      ("status", Json.str s.status),
      ("currentStep", Json.num s.currentStep),
      ("memory", Json.obj s.memory),
      ("context", Json.arr (s.context.map Json.str)),
      ("goal", Json.str s.goal),
      ("subGoals", Json.arr (s.subGoals.map Json.str)),
      ("completedSubGoals", Json.arr (s.completedSubGoals.map Json.str))]
      ++ optField "lastOutput" (s.lastOutput.map Json.str)
      ++ optField "startTime" (s.startTime.map Json.str)
      ++ optField "endTime" (s.endTime.map Json.str))

/-- The JSON document `JSON.stringify` produces for a `Step`. -/
def encodeStep (s : Step) : Json :=
  Json.obj
    ([("stepNumber", Json.num (Int.ofNat s.stepNumber)),
      ("stepType", Json.str s.stepType),
      ("timestamp", Json.str s.timestamp),
      ("input", s.input),
      ("output", s.output),
      ("stateSnapshot", encodeAgentState s.stateSnapshot)]
      ++ optField "duration" (s.duration.map (fun d => Json.num (Int.ofNat d)))
      ++ optField "metadata" s.metadata)

/-- The JSON document `JSON.stringify` produces for `Trace.metadata`. -/
def encodeTraceMetadata (m : TraceMetadata) : Json :=
  Json.obj
    ([("agentVersion", Json.str m.agentVersion),
      ("toolsUsed", Json.arr (m.toolsUsed.map Json.str)),
      ("totalLLMCalls", Json.num (Int.ofNat m.totalLLMCalls)),
      ("totalToolCalls", Json.num (Int.ofNat m.totalToolCalls))]
      ++ optField "replayedFrom" (m.replayedFrom.map Json.str))

/-- The JSON document `JSON.stringify` produces for a full `Trace`: the
artifact content `TraceRecorder.save` writes (modulo pretty-printing
whitespace, which JSON parsing discards). -/
def encodeTrace (t : Trace) : Json :=
  Json.obj
    ([("traceId", Json.str t.traceId),
      ("agentId", Json.str t.agentId),
      ("taskId", Json.str t.taskId),
      ("startTime", Json.str t.startTime)]
      ++ optField "endTime" (t.endTime.map Json.str)
      ++ [("status", Json.str t.status),
          ("steps", Json.arr (t.steps.map encodeStep))]
      ++ optField "finalState" (t.finalState.map encodeAgentState)
      ++ [("metadata", encodeTraceMetadata t.metadata)])

namespace TraceRecorder

/-!
`TraceRecorder` methods from `src/unnamed/part_004`.  The recorder's
`deepClone` is `JSON.parse(JSON.stringify(obj))`, which on the value
level of this model is the identity (our `AgentState` is already a pure
value).  `save()` writes the trace to disk and does not change it, so
recording operations are functions `Trace → Trace`.  Timestamps and the
computed `getStepDuration()` value are explicit parameters.
-/

/-- `recordLLMStep` (`src/unnamed/part_004` lines 81-104): appends a step
numbered `steps.length + 1` of type `"llm"` and increments
`metadata.totalLLMCalls`. -/
def recordLLMStep (t : Trace) (ts : String) (input output : Json)
    (st : AgentState) (dur : Nat) : Trace :=
  let step : Step :=
    { stepNumber := t.steps.length + 1
      stepType := "llm"
      timestamp := ts
      input := input
      output := output
      stateSnapshot := st
      duration := some dur
      metadata := none }
  { t with
    steps := t.steps ++ [step]
    metadata := { t.metadata with totalLLMCalls := t.metadata.totalLLMCalls + 1 } }

/-- `recordToolStep` (`src/unnamed/part_004` lines 109-137): appends a
step numbered `steps.length + 1` of type `"tool"`, increments
`metadata.totalToolCalls`, and pushes `input.toolName` onto
`metadata.toolsUsed` when not already present. -/
def recordToolStep (t : Trace) (ts toolName : String) (params output : Json)
    (st : AgentState) (dur : Nat) : Trace :=
  let step : Step :=
    { stepNumber := t.steps.length + 1
      stepType := "tool"
      timestamp := ts
      input := Json.obj [("toolName", Json.str toolName), ("parameters", params)]
      output := output
      stateSnapshot := st
      duration := some dur
      metadata := none }
  { t with
    steps := t.steps ++ [step]
    metadata :=
      { t.metadata with
        totalToolCalls := t.metadata.totalToolCalls + 1
        toolsUsed :=
          if t.metadata.toolsUsed.contains toolName then t.metadata.toolsUsed
          else t.metadata.toolsUsed ++ [toolName] } }

/-- `recordDecisionStep` (`src/unnamed/part_004` lines 142-164): appends
a `"decision"` step; no metadata counter is touched. -/
def recordDecisionStep (t : Trace) (ts : String) (input output : Json)
    (st : AgentState) (dur : Nat) : Trace :=
  let step : Step :=
    { stepNumber := t.steps.length + 1
      stepType := "decision"
      timestamp := ts
      input := input
      output := output
      stateSnapshot := st
      duration := some dur
      metadata := none }
  { t with steps := t.steps ++ [step] }

/-- `recordStateStep` (`src/unnamed/part_004` lines 169-194): appends a
`"state"` step whose `output` object carries deep clones of the previous
and new state; no metadata counter is touched. -/
def recordStateStep (t : Trace) (ts : String) (input : Json)
    (prev new : AgentState) (dur : Nat) : Trace :=
  let step : Step :=
    { stepNumber := t.steps.length + 1
      stepType := "state"
      timestamp := ts
      input := input
      output := Json.obj
        [("previousState", encodeAgentState prev), ("newState", encodeAgentState new)]
      stateSnapshot := new
      duration := some dur
      metadata := none }
  { t with steps := t.steps ++ [step] }

/-- `recordErrorStep` (`src/unnamed/part_004` lines 201-223): appends an
`"error"` step; no metadata counter is touched. -/
def recordErrorStep (t : Trace) (ts : String) (input output : Json)
    (st : AgentState) (dur : Nat) : Trace :=
  let step : Step :=
    { stepNumber := t.steps.length + 1
      stepType := "error"
      timestamp := ts
      input := input
      output := output
      stateSnapshot := st
      duration := some dur
      metadata := none }
  { t with steps := t.steps ++ [step] }

/-- `recordStep` (`src/unnamed/part_004` lines 228-253): appends a step
of the caller-supplied `stepType` with optional `metadata`.  Note: it
updates no metadata counter, whatever `stepType` is. -/
def recordStep (t : Trace) (stepType ts : String) (input output : Json)
    (st : AgentState) (dur : Nat) (meta : Option Json) : Trace :=
  let step : Step :=
    { stepNumber := t.steps.length + 1
      stepType := stepType
      timestamp := ts
      input := input
      output := output
      stateSnapshot := st
      duration := some dur
      metadata := meta }
  { t with steps := t.steps ++ [step] }

end TraceRecorder

/-- One invocation of a `TraceRecorder` recording method, with every
environment-supplied quantity (timestamp, duration, payloads, state)
packaged as constructor data.  This lets us quantify over arbitrary
sequences of recording operations. -/
inductive RecordOp where
  | llm (ts : String) (input output : Json) (st : AgentState) (dur : Nat)
  | tool (ts toolName : String) (params output : Json) (st : AgentState) (dur : Nat)
  | decision (ts : String) (input output : Json) (st : AgentState) (dur : Nat)
  | stateUpd (ts : String) (input : Json) (prev new : AgentState) (dur : Nat)
  | error (ts : String) (input output : Json) (st : AgentState) (dur : Nat)
  | generic (stepType ts : String) (input output : Json) (st : AgentState)
      (dur : Nat) (meta : Option Json)

/-- Dispatch one recorded operation to the corresponding
`TraceRecorder` method. -/
def applyOp (t : Trace) : RecordOp → Trace
  | .llm ts i o st d => TraceRecorder.recordLLMStep t ts i o st d
  | .tool ts n p o st d => TraceRecorder.recordToolStep t ts n p o st d
  | .decision ts i o st d => TraceRecorder.recordDecisionStep t ts i o st d
  | .stateUpd ts i p n d => TraceRecorder.recordStateStep t ts i p n d
  | .error ts i o st d => TraceRecorder.recordErrorStep t ts i o st d
  | .generic ty ts i o st d m => TraceRecorder.recordStep t ty ts i o st d m

/-- The trace a `TraceRecorder` holds after a constructor call
(`createTrace`) followed by an arbitrary sequence of recording
operations. -/
def runRecorder (traceId now agentId taskId : String) (ops : List RecordOp) : Trace :=
  ops.foldl applyOp (createTrace traceId now agentId taskId)

/-- §3 metadata invariant: the incrementally maintained counters agree
with a full recount of step types. -/
def CountersConsistent (t : Trace) : Prop :=
  t.metadata.totalLLMCalls = t.steps.countP (fun s => s.stepType == "llm")
  ∧ t.metadata.totalToolCalls = t.steps.countP (fun s => s.stepType == "tool")

/-- Gapless 1-based numbering, phrased as an executable equality of the
step-number sequence with `[1, ..., length]`. -/
def Gapless (t : Trace) : Prop :=
  t.steps.map Step.stepNumber = List.range' 1 t.steps.length

/-!
Reading a parsed JSON document back as a `Trace`.

`TraceRecorder.load` is `JSON.parse(content) as Trace`
(`src/unnamed/part_004` lines 283-286): `JSON.parse` rebuilds the value
tree the artifact text denotes and the TS cast is a no-op.  On the tree
level this is the partial inverse of the `encode*` functions above: each
field of the structure is read back off the object.  A tree that does
not have the expected shape yields `none` (in TS the unchecked cast
would instead produce an ill-typed object). -/

/-- Object-key lookup, as property access on a parsed JSON object. -/
def jGet : List (String × Json) → String → Option Json
  | [], _ => none
  | (k, v) :: rest, key => if k == key then some v else jGet rest key

/-- Read a JSON value as a string. -/
def asStr : Json → Option String
  | .str s => some s
  | _ => none

/-- Read a JSON value as an integer. -/
def asInt : Json → Option Int
  | .num i => some i
  | _ => none

/-- Read a list of JSON values as a list of strings. -/
def strsOf : List Json → Option (List String)
  | [] => some []
  | .str s :: rest => (strsOf rest).map (fun l => s :: l)
  | _ => none

/-- Read a JSON value as an array of strings. -/
def asStrs : Json → Option (List String)
  | .arr xs => strsOf xs
  | _ => none

/-- Read a JSON value as an object (key/value list). -/
def asObj : Json → Option (List (String × Json))
  | .obj kvs => some kvs
  | _ => none

/-- Read a JSON value as an array. -/
def asArr : Json → Option (List Json)
  | .arr xs => some xs
  | _ => none

/-- Read an `AgentState` back off its JSON document. -/
def decodeAgentState : Json → Option AgentState
  | .obj kvs =>
    match (jGet kvs "taskId").bind asStr, (jGet kvs "status").bind asStr,
        (jGet kvs "currentStep").bind asInt, (jGet kvs "memory").bind asObj,
        (jGet kvs "context").bind asStrs, (jGet kvs "goal").bind asStr,
        (jGet kvs "subGoals").bind asStrs,
        (jGet kvs "completedSubGoals").bind asStrs with
    | some taskId, some status, some cur, some mem, some ctx, some goal,
        some sub, some comp =>
      some
        { taskId := taskId
          status := status
          currentStep := cur
          memory := mem
          context := ctx
          goal := goal
          subGoals := sub
          completedSubGoals := comp
          lastOutput := (jGet kvs "lastOutput").bind asStr
          startTime := (jGet kvs "startTime").bind asStr
          endTime := (jGet kvs "endTime").bind asStr }
    | _, _, _, _, _, _, _, _ => none
  | _ => none

/-- Read a `Step` back off its JSON document. -/
def decodeStep : Json → Option Step
  | .obj kvs =>
    match (jGet kvs "stepNumber").bind asInt, (jGet kvs "stepType").bind asStr,
        (jGet kvs "timestamp").bind asStr, jGet kvs "input", jGet kvs "output",
        (jGet kvs "stateSnapshot").bind decodeAgentState with
    | some n, some ty, some ts, some i, some o, some snap =>
      some
        { stepNumber := n.toNat
          stepType := ty
          timestamp := ts
          input := i
          output := o
          stateSnapshot := snap
          duration := ((jGet kvs "duration").bind asInt).map Int.toNat
          metadata := jGet kvs "metadata" }
    | _, _, _, _, _, _ => none
  | _ => none

/-- Read a list of `Step`s back off a list of JSON documents. -/
def decodeSteps : List Json → Option (List Step)
  | [] => some []
  | j :: rest =>
    match decodeStep j, decodeSteps rest with
    | some s, some l => some (s :: l)
    | _, _ => none

/-- Read `Trace.metadata` back off its JSON document. -/
def decodeTraceMetadata : Json → Option TraceMetadata
  | .obj kvs =>
    match (jGet kvs "agentVersion").bind asStr, (jGet kvs "toolsUsed").bind asStrs,
        (jGet kvs "totalLLMCalls").bind asInt,
        (jGet kvs "totalToolCalls").bind asInt with
    | some v, some tools, some llm, some tool =>
      some
        { agentVersion := v
          toolsUsed := tools
          totalLLMCalls := llm.toNat
          totalToolCalls := tool.toNat
          replayedFrom := (jGet kvs "replayedFrom").bind asStr }
    | _, _, _, _ => none
  | _ => none

/-- Read a full `Trace` back off its JSON document: the model of
`TraceRecorder.load` applied to an artifact holding that document. -/
def decodeTrace : Json → Option Trace
  | .obj kvs =>
    match (jGet kvs "traceId").bind asStr, (jGet kvs "agentId").bind asStr,
        (jGet kvs "taskId").bind asStr, (jGet kvs "startTime").bind asStr,
        (jGet kvs "status").bind asStr,
        ((jGet kvs "steps").bind asArr).bind decodeSteps,
        (jGet kvs "metadata").bind decodeTraceMetadata with
    | some tid, some aid, some task, some start, some status, some steps,
        some meta =>
      some
        { traceId := tid
          agentId := aid
          taskId := task
          startTime := start
          endTime := (jGet kvs "endTime").bind asStr
          status := status
          steps := steps
          finalState := (jGet kvs "finalState").bind decodeAgentState
          metadata := meta }
    | _, _, _, _, _, _, _ => none
  | _ => none

/-!
`JSON.stringify` rendered to a compact string (the form the Controller's
`searchSteps` serializes with), and the character-level case folding and
substring containment used by both search implementations.
-/

/-- Escape one character inside a JSON string literal (the common
escapes; the claims' payloads contain no exotic control characters). -/
def escChar (c : Char) : String :=
  if c = '"' then "\\\""
  else if c = '\\' then "\\\\"
  else if c = '\n' then "\\n"
  else if c = '\t' then "\\t"
  else if c = '\r' then "\\r"
  else String.singleton c

/-- Render a string as a JSON string literal. -/
def jstr (s : String) : String :=
  "\"" ++ String.join (s.data.map escChar) ++ "\""

mutual

/-- Compact `JSON.stringify` of a JSON value (no added whitespace, as in
`JSON.stringify(v)` with no spacing argument). -/
def stringifyJson : Json → String
  | .null => "null"
  | .bool true => "true"
  | .bool false => "false"
  | .num i => toString i
  | .str s => jstr s
  | .arr xs => "[" ++ stringifyArr xs ++ "]"
  | .obj kvs => "\x7b" ++ stringifyObj kvs ++ "\x7d"

/-- Comma-joined stringification of array elements. -/
def stringifyArr : List Json → String
  | [] => ""
  | [x] => stringifyJson x
  | x :: y :: rest => stringifyJson x ++ "," ++ stringifyArr (y :: rest)

/-- Comma-joined stringification of object entries. -/
def stringifyObj : List (String × Json) → String
  | [] => ""
  | [(k, v)] => jstr k ++ ":" ++ stringifyJson v
  | (k, v) :: p :: rest => jstr k ++ ":" ++ stringifyJson v ++ "," ++ stringifyObj (p :: rest)

end

/-- Case-folded character sequence of a string
(`String.prototype.toLowerCase`, ASCII range as used by the claims). -/
def lowerChars (s : String) : List Char :=
  s.data.map Char.toLower

/-- Does `pat` occur at the head of `s`? -/
def headMatches : List Char → List Char → Bool
  | _, [] => true
  | [], _ :: _ => false
  | a :: as, b :: bs => a == b && headMatches as bs

/-- Substring containment on character lists
(`String.prototype.includes`). -/
def hasSub : List Char → List Char → Bool
  | [], pat => pat.isEmpty
  | a :: as, pat => headMatches (a :: as) pat || hasSub as pat

namespace StepInspector

/-- `safeString` (`src/unnamed/part_003` lines 340-348): `null` maps to
the fallback, strings pass through unquoted, everything else is
`JSON.stringify`ed.  The `undefined` case is handled by the `Option`
wrapper at call sites. -/
def safeString (v : Json) (fallback : String) : String :=
  match v with
  | .null => fallback
  | .str s => s
  | v => stringifyJson v

/-- `safeString` applied to a possibly-`undefined` value. -/
def safeStringOpt : Option Json → String
  | none => ""
  | some v => safeString v ""

/-- `StepInspector.getStepsByType` (`src/unnamed/part_003` lines
139-141): filter by exact `stepType` equality. -/
def getStepsByType (t : Trace) (stepType : String) : List Step :=
  t.steps.filter (fun s => s.stepType == stepType)

/-- `StepInspector.searchSteps` (`src/unnamed/part_003` lines 143-158):
case-insensitive substring match of the query against `safeString` of
`input`, `output`, `stateSnapshot` and `metadata`.  The state snapshot
is a plain object, so `safeString` serializes it via `JSON.stringify`,
i.e. `stringifyJson ∘ encodeAgentState`. -/
def searchSteps (t : Trace) (query : String) : List Step :=
  let q := lowerChars query
  t.steps.filter (fun step =>
    hasSub (lowerChars (safeString step.input "")) q
    || hasSub (lowerChars (safeString step.output "")) q
    || hasSub (lowerChars (safeString (encodeAgentState step.stateSnapshot) "")) q
    || hasSub (lowerChars (safeStringOpt step.metadata)) q)

end StepInspector

/-- `ReplaySnapshot` from `src/src/core/replay-controller.ts` lines
29-37. -/
structure ReplaySnapshot where
  stepNumber : Nat
  stepType : String
  timestamp : String
  input : Json
  output : Json
  agentState : AgentState
  duration : Option Nat

/-- The snapshot object the controller builds for a step (the literal
repeated at `src/src/core/replay-controller.ts` lines 93-101, 238-246,
260-268, 284-292, 306-315): all payload fields plus a spread copy of the
state snapshot (a spread copy of a value is the value). -/
def snapshotOf (s : Step) : ReplaySnapshot :=
  { stepNumber := s.stepNumber
    stepType := s.stepType
    timestamp := s.timestamp
    input := s.input
    output := s.output
    agentState := s.stateSnapshot
    duration := s.duration }

/-- The mutable fields of `StatefulReplayController`
(`src/src/core/replay-controller.ts` lines 39-46) that functional
navigation touches.  The auto-play timer handle and speed drive
real-time behavior only and are not part of this value model. -/
structure Controller where
  trace : Trace
  currentStepIndex : Nat
  replayState : String
  agentState : AgentState
  stepHistory : List Nat

namespace Controller

/-- The constructor (`src/src/core/replay-controller.ts` lines 48-56):
cursor 0, state `'idle'`, agent state from the first step's snapshot or
`createInitialState(taskId, '')` for an empty trace (whose timestamp
read is the parameter `now`). -/
def construct (t : Trace) (now : String) : Controller :=
  { trace := t
    currentStepIndex := 0
    replayState := "idle"
    agentState :=
      match t.steps with
      | s :: _ => s.stateSnapshot
      | [] => createInitialState t.taskId "" now
    stepHistory := [] }

/-- `getStatus` (`src/src/core/replay-controller.ts` lines 69-82).
`progress` is `Math.round(currentStepIndex / totalSteps * 100)` for a
non-empty trace and 0 otherwise; on exact rationals
`Math.round(i/n*100) = ⌊(i*200 + n) / (2*n)⌋`. -/
def getStatus (c : Controller) :
    String × Nat × Nat × Bool × Bool × Nat :=
  let totalSteps := c.trace.steps.length
  let progress :=
    if 0 < totalSteps then (c.currentStepIndex * 200 + totalSteps) / (2 * totalSteps)
    else 0
  (c.replayState, c.currentStepIndex, totalSteps,
    decide (c.currentStepIndex < totalSteps - 1),
    decide (0 < c.currentStepIndex),
    progress)

/-- The `progress` component of `getStatus`. -/
def progressOf (c : Controller) : Nat :=
  c.getStatus.2.2.2.2.2

/-- The `canJump` closure returned by `getStatus`
(`src/src/core/replay-controller.ts` line 79). -/
def canJump (c : Controller) (stepNumber : Int) : Bool :=
  0 ≤ stepNumber && stepNumber < c.trace.steps.length

/-- `updateAgentState` (`src/src/core/replay-controller.ts` lines
372-376): refresh `agentState` from the cursor's step snapshot when the
cursor is in range. -/
def updateAgentState (c : Controller) : Controller :=
  match c.trace.steps[c.currentStepIndex]? with
  | some s => { c with agentState := s.stateSnapshot }
  | none => c

/-- `stepForward` (`src/src/core/replay-controller.ts` lines 175-184):
guarded by `currentStepIndex < steps.length - 1`; on success increments
the cursor, refreshes the agent state and appends the new index to the
history. -/
def stepForward (c : Controller) : Bool × Controller :=
  if c.currentStepIndex < c.trace.steps.length - 1 then
    let c := { c with currentStepIndex := c.currentStepIndex + 1 }
    let c := updateAgentState c
    (true, { c with stepHistory := c.stepHistory ++ [c.currentStepIndex] })
  else (false, c)

/-- `stepBackward` (`src/src/core/replay-controller.ts` lines 189-198):
guarded by `currentStepIndex > 0`. -/
def stepBackward (c : Controller) : Bool × Controller :=
  if 0 < c.currentStepIndex then
    let c := { c with currentStepIndex := c.currentStepIndex - 1 }
    let c := updateAgentState c
    (true, { c with stepHistory := c.stepHistory ++ [c.currentStepIndex] })
  else (false, c)

/-- `jumpToStep` (`src/src/core/replay-controller.ts` lines 203-214):
rejects a target outside `[0, totalSteps)` with `false` and no state
change; otherwise moves the cursor, refreshes the agent state, appends
to the history and returns `true`.  The argument is an arbitrary
integer, as in TS. -/
def jumpToStep (c : Controller) (stepNumber : Int) : Bool × Controller :=
  if stepNumber < 0 ∨ (c.trace.steps.length : Int) ≤ stepNumber then (false, c)
  else
    let c := { c with currentStepIndex := stepNumber.toNat }
    let c := updateAgentState c
    (true, { c with stepHistory := c.stepHistory ++ [c.currentStepIndex] })

/-- `jumpToStart` (`src/src/core/replay-controller.ts` lines 219-222):
sets the cursor to 0 and refreshes the agent state.  It does not touch
`stepHistory`. -/
def jumpToStart (c : Controller) : Controller :=
  updateAgentState { c with currentStepIndex := 0 }

/-- `jumpToEnd` (`src/src/core/replay-controller.ts` lines 227-230):
sets the cursor to `max(0, steps.length - 1)` and refreshes the agent
state.  It does not touch `stepHistory`. -/
def jumpToEnd (c : Controller) : Controller :=
  updateAgentState { c with currentStepIndex := c.trace.steps.length - 1 }

/-- `stop` (`src/src/core/replay-controller.ts` lines 164-170): cancels
the timer (real-time only) and sets the playback state to
`'stopped'`. -/
def stop (c : Controller) : Controller :=
  { c with replayState := "stopped" }

/-- `reset` (`src/src/core/replay-controller.ts` lines 114-123): calls
`stop()`, zeroes the cursor, clears the history, and re-copies the first
step's snapshot into `agentState` when the trace is non-empty. -/
def reset (c : Controller) : Controller :=
  let c := stop c
  let c := { c with currentStepIndex := 0, stepHistory := [] }
  match c.trace.steps with
  | s :: _ => { c with agentState := s.stateSnapshot }
  | [] => c

/-- `getAgentState` (`src/src/core/replay-controller.ts` lines 107-109)
on the value level: the returned spread copy carries the same value. -/
def getAgentState (c : Controller) : AgentState :=
  c.agentState

/-- `getNavigationHistory` (`src/src/core/replay-controller.ts` lines
274-276): a copy of the visited-index log. -/
def getNavigationHistory (c : Controller) : List Nat :=
  c.stepHistory

/-- `getStepsByType` (`src/src/core/replay-controller.ts` lines
235-247): filter by `stepType`, then build snapshots. -/
def getStepsByType (c : Controller) (stepType : String) : List ReplaySnapshot :=
  (c.trace.steps.filter (fun s => s.stepType == stepType)).map snapshotOf

/-- `searchSteps` (`src/src/core/replay-controller.ts` lines 252-269):
case-insensitive substring match of the query against
`JSON.stringify(step.input)` and `JSON.stringify(step.output)` only. -/
def searchSteps (c : Controller) (query : String) : List ReplaySnapshot :=
  let q := lowerChars query
  (c.trace.steps.filter (fun step =>
    hasSub (lowerChars (stringifyJson step.input)) q
    || hasSub (lowerChars (stringifyJson step.output)) q)).map snapshotOf

/-- JavaScript array indexing `this.trace.steps[n]` with an arbitrary
integer index: `undefined` (`none`) outside `[0, length)`. -/
def stepAt (t : Trace) (n : Int) : Option Step :=
  if 0 ≤ n then t.steps[n.toNat]? else none

/-- The result record of `compareSteps`. -/
structure StepComparison where
  step1 : Option ReplaySnapshot
  step2 : Option ReplaySnapshot
  stateDifferences : List String

/-- `compareSteps` (`src/src/core/replay-controller.ts` lines 298-353):
indexes `steps` directly with both arguments, builds a snapshot for each
side that exists, and computes the shallow state diff (status,
`currentStep`, memory key count, context length) only when both sides
exist. -/
def compareSteps (c : Controller) (stepNumber1 stepNumber2 : Int) : StepComparison :=
  let step1 := stepAt c.trace stepNumber1
  let step2 := stepAt c.trace stepNumber2
  let differences :=
    match step1, step2 with
    | some s1, some s2 =>
      let st1 := s1.stateSnapshot
      let st2 := s2.stateSnapshot
      (if st1.status = st2.status then []
        else ["status: " ++ st1.status ++ " → " ++ st2.status])
      ++ (if st1.currentStep = st2.currentStep then []
        else ["currentStep: " ++ toString st1.currentStep ++ " → " ++ toString st2.currentStep])
      ++ (if st1.memory.length = st2.memory.length then []
        else ["memory size: " ++ toString st1.memory.length ++ " → " ++ toString st2.memory.length])
      ++ (if st1.context.length = st2.context.length then []
        else ["context items: " ++ toString st1.context.length ++ " → " ++ toString st2.context.length])
    | _, _ => []
  { step1 := step1.map snapshotOf
    step2 := step2.map snapshotOf
    stateDifferences := differences }

end Controller

namespace Alias

/-!
Reference-level model of `StatefulReplayController.getAgentState`.

The value-level model above cannot express JavaScript object aliasing,
which is what the snapshot-isolation property is about.  Here an
`AgentState` object's non-primitive fields (`memory`, `context`,
`subGoals`, `completedSubGoals`) are heap references; primitive fields
(strings, numbers) are copied by value.  An object spread `{ ...s }`
copies the field values — including the references — so the copy shares
the referenced heap cells with the original.  The recorder's
`deepClone` (JSON round trip) instead allocates fresh cells.
-/

/-- The heap cells the model needs: `memory` objects (string-keyed maps
of JSON values) and string arrays (`context`, `subGoals`,
`completedSubGoals`), addressed by index. -/
structure Heap where
  memCells : List (List (String × Json))
  strCells : List (List String)

/-- An `AgentState` object: primitives inline, compound fields as heap
references. -/
structure ObjAgentState where
  taskId : String
  status : String
  currentStep : Int
  memoryRef : Nat
  contextRef : Nat
  goal : String
  subGoalsRef : Nat
  completedSubGoalsRef : Nat
  lastOutput : Option String

/-- A recorded step as stored in the loaded trace: only the fields the
aliasing claim involves. -/
structure ObjStep where
  stepNumber : Nat
  stepType : String
  stateSnapshot : ObjAgentState

/-- The loaded trace's step array. -/
structure ObjTrace where
  steps : List ObjStep

/-- The controller fields the claim involves. -/
structure ObjController where
  trace : ObjTrace
  currentStepIndex : Nat
  agentState : ObjAgentState

/-- Object spread `{ ...s }` (`src/src/core/replay-controller.ts` lines
52, 108, 374): a new object with the same field values; the `memory` /
`context` references still point at the shared heap cells. -/
def spreadCopy (s : ObjAgentState) : ObjAgentState :=
  { taskId := s.taskId
    status := s.status
    currentStep := s.currentStep
    memoryRef := s.memoryRef
    contextRef := s.contextRef
    goal := s.goal
    subGoalsRef := s.subGoalsRef
    completedSubGoalsRef := s.completedSubGoalsRef
    lastOutput := s.lastOutput }

/-- The constructor (`src/src/core/replay-controller.ts` lines 48-56)
for a non-empty trace: `this.agentState = { ...trace.steps[0].stateSnapshot }`.
`dflt` stands in for `createInitialState` on the empty trace. -/
def construct (t : ObjTrace) (dflt : ObjAgentState) : ObjController :=
  match t.steps with
  | s :: _ => { trace := t, currentStepIndex := 0, agentState := spreadCopy s.stateSnapshot }
  | [] => { trace := t, currentStepIndex := 0, agentState := dflt }

/-- `getAgentState` (`src/src/core/replay-controller.ts` lines 107-109):
`return { ...this.agentState }`. -/
def getAgentState (c : ObjController) : ObjAgentState :=
  spreadCopy c.agentState

/-- A caller-side mutation of the returned object's nested `memory`
map: `returned.memory[k] = v`, which writes through the reference into
the heap cell. -/
def writeMemoryKey (h : Heap) (s : ObjAgentState) (k : String) (v : Json) : Heap :=
  { h with
    memCells := h.memCells.set s.memoryRef ((h.memCells.getD s.memoryRef []) ++ [(k, v)]) }

/-- The current contents of a state object's `memory` map, read through
its reference. -/
def readMemory (h : Heap) (s : ObjAgentState) : List (String × Json) :=
  h.memCells.getD s.memoryRef []

end Alias

/-- `TraceRecorder.save` (`src/unnamed/part_004` lines 271-278) writes
`JSON.stringify(this.trace, null, 2)` to the artifact; the document that
text denotes is `encodeTrace` (pretty-printing whitespace is
non-semantic). -/
def TraceRecorder.saveDoc (t : Trace) : Json :=
  encodeTrace t

/-- `TraceRecorder.load` (`src/unnamed/part_004` lines 283-286) is
`JSON.parse(content) as Trace`: parse the artifact text back into its
document and read it as a `Trace`. -/
def TraceRecorder.loadDoc (j : Json) : Option Trace :=
  decodeTrace j

/-- The recording operations whose counter bookkeeping matches their
step type: every dedicated `recordXStep` method, and the generic
`recordStep` only when its `stepType` is not one of the counted types
(`recordStep` never updates `totalLLMCalls` / `totalToolCalls`). -/
def permittedOp : RecordOp → Prop
  | .generic ty _ _ _ _ _ _ => ty ≠ "llm" ∧ ty ≠ "tool"
  | _ => True

/-!  Concrete sample data used by the counterexample and witness
theorems below. -/

/-- A sample agent state. -/
def sampleState : AgentState :=
  createInitialState "task" "goal" "2024-01-01T00:00:00Z"

/-- A sample recorded step. -/
def sampleStep (n : Nat) (ty : String) : Step :=
  { stepNumber := n
    stepType := ty
    timestamp := "2024-01-01T00:00:00Z"
    input := Json.null
    output := Json.null
    stateSnapshot := sampleState
    duration := some 0
    metadata := none }

/-- A sample two-step trace (gapless, counters consistent). -/
def twoStepTrace : Trace :=
  { traceId := "trace_1"
    agentId := "agent"
    taskId := "task"
    startTime := "2024-01-01T00:00:00Z"
    endTime := none
    status := "completed"
    steps := [sampleStep 1 "llm", sampleStep 2 "tool"]
    finalState := none
    metadata :=
      { agentVersion := "1.0.0"
        toolsUsed := ["browse"]
        totalLLMCalls := 1
        totalToolCalls := 1
        replayedFrom := none } }

/-- A trace produced by the generic `recordStep` with step type
`"llm"`. -/
def genericLLMTrace : Trace :=
  TraceRecorder.recordStep (createTrace "trace_2" "now" "agent" "task")
    "llm" "ts" Json.null Json.null sampleState 0 none

/-- An agent state whose `goal` contains the search needle. -/
def needleState : AgentState :=
  { taskId := "t"
    status := "completed"
    currentStep := 0
    memory := []
    context := []
    goal := "needle"
    subGoals := []
    completedSubGoals := []
    lastOutput := none
    startTime := none
    endTime := none }

/-- A step whose payloads do not contain the needle but whose state
snapshot does. -/
def needleStep : Step :=
  { stepNumber := 1
    stepType := "llm"
    timestamp := "ts"
    input := Json.str "aaa"
    output := Json.str "bbb"
    stateSnapshot := needleState
    duration := none
    metadata := none }

/-- A one-step trace around `needleStep`. -/
def needleTrace : Trace :=
  { traceId := "trace_3"
    agentId := "a"
    taskId := "t"
    startTime := "s"
    endTime := none
    status := "completed"
    steps := [needleStep]
    finalState := none
    metadata :=
      { agentVersion := "1.0.0"
        toolsUsed := []
        totalLLMCalls := 1
        totalToolCalls := 0
        replayedFrom := none } }

namespace Alias

/-- The stored state snapshot of the sample one-step object trace: its
`memory` lives in heap cell 0. -/
def sampleObjState : ObjAgentState :=
  { taskId := "task"
    status := "completed"
    currentStep := 1
    memoryRef := 0
    contextRef := 0
    goal := "goal"
    subGoalsRef := 1
    completedSubGoalsRef := 2
    lastOutput := none }

/-- A one-step object trace whose step stores `sampleObjState`. -/
def sampleObjTrace : ObjTrace :=
  { steps := [{ stepNumber := 1, stepType := "llm", stateSnapshot := sampleObjState }] }

/-- The heap backing `sampleObjTrace`: the snapshot's `memory` cell is
empty, and the three string cells are empty arrays. -/
def sampleHeap : Heap :=
  { memCells := [[]], strCells := [[], [], []] }

/-- The object a caller receives from
`controller.getAgentState()` on a controller freshly constructed over
`sampleObjTrace`. -/
def returnedState : ObjAgentState :=
  getAgentState (construct sampleObjTrace sampleObjState)

/-- The heap after the caller mutates the returned object's nested
`memory` map: `returned.memory["k"] = "v"`. -/
def mutatedHeap : Heap :=
  writeMemoryKey sampleHeap returnedState "k" (Json.str "v")

end Alias

/-!  ## Helper lemmas  -/

/-- Appending a step numbered `length + 1` preserves gapless
numbering. -/
theorem gapless_append {t : Trace} {s : Step} (h : Gapless t)
    (hs : s.stepNumber = t.steps.length + 1) {rest : Trace}
    (hrest : rest.steps = t.steps ++ [s]) : Gapless rest := by
  unfold Gapless at h ⊢
  rw [hrest, List.map_append, h, List.length_append]
  simp [List.range'_concat, hs, Nat.add_comm]

/-- Every recording operation appends one step numbered `length + 1`,
so it preserves gapless numbering. -/
theorem gapless_applyOp {t : Trace} (op : RecordOp) (h : Gapless t) :
    Gapless (applyOp t op) := by
  cases op <;>
    exact gapless_append h rfl rfl

/-- Gapless numbering holds after any sequence of recording operations
from any gapless starting trace. -/
theorem gapless_foldl (ops : List RecordOp) :
    ∀ t : Trace, Gapless t → Gapless (ops.foldl applyOp t) := by
  induction ops with
  | nil => intro t h; exact h
  | cons op rest ih => intro t h; exact ih _ (gapless_applyOp op h)

/-- The trace held after any recorder run is gapless. -/
theorem runRecorder_gapless (traceId now agentId taskId : String)
    (ops : List RecordOp) : Gapless (runRecorder traceId now agentId taskId ops) :=
  gapless_foldl ops _ rfl

/-- Index form of gapless numbering. -/
theorem gapless_get {t : Trace} (h : Gapless t) (i : Nat)
    (hi : i < t.steps.length) : (t.steps[i]).stepNumber = i + 1 := by
  have hm : i < (t.steps.map Step.stepNumber).length := by simpa using hi
  have h2 := List.getElem_of_eq h hm
  simp only [List.getElem_map, List.getElem_range'] at h2
  omega

/-- `updateAgentState` touches only `agentState`. -/
theorem updateAgentState_fields (c : Controller) :
    (Controller.updateAgentState c).trace = c.trace
    ∧ (Controller.updateAgentState c).currentStepIndex = c.currentStepIndex
    ∧ (Controller.updateAgentState c).replayState = c.replayState
    ∧ (Controller.updateAgentState c).stepHistory = c.stepHistory := by
  unfold Controller.updateAgentState
  cases c.trace.steps[c.currentStepIndex]? <;> exact ⟨rfl, rfl, rfl, rfl⟩

/-- A recording operation preserves counter consistency whenever its
counter bookkeeping matches its step type. -/
theorem counters_applyOp {t : Trace} {op : RecordOp}
    (h : CountersConsistent t) (hp : permittedOp op) :
    CountersConsistent (applyOp t op) := by
  obtain ⟨h1, h2⟩ := h
  cases op with
  | llm ts i o st d =>
    exact ⟨by simp [applyOp, TraceRecorder.recordLLMStep, List.countP_append, h1],
      by simp [applyOp, TraceRecorder.recordLLMStep, List.countP_append, h2]⟩
  | tool ts n p o st d =>
    exact ⟨by simp [applyOp, TraceRecorder.recordToolStep, List.countP_append, h1],
      by simp [applyOp, TraceRecorder.recordToolStep, List.countP_append, h2]⟩
  | decision ts i o st d =>
    exact ⟨by simp [applyOp, TraceRecorder.recordDecisionStep, List.countP_append, h1],
      by simp [applyOp, TraceRecorder.recordDecisionStep, List.countP_append, h2]⟩
  | stateUpd ts i p n d =>
    exact ⟨by simp [applyOp, TraceRecorder.recordStateStep, List.countP_append, h1],
      by simp [applyOp, TraceRecorder.recordStateStep, List.countP_append, h2]⟩
  | error ts i o st d =>
    exact ⟨by simp [applyOp, TraceRecorder.recordErrorStep, List.countP_append, h1],
      by simp [applyOp, TraceRecorder.recordErrorStep, List.countP_append, h2]⟩
  | generic ty ts i o st d m =>
    obtain ⟨hl, ht⟩ := hp
    exact ⟨by simp [applyOp, TraceRecorder.recordStep, List.countP_append, h1, hl],
      by simp [applyOp, TraceRecorder.recordStep, List.countP_append, h2, ht]⟩

/-- Counter consistency holds after any permitted sequence of recording
operations from any counter-consistent starting trace. -/
theorem counters_foldl (ops : List RecordOp) :
    ∀ t : Trace, CountersConsistent t → (∀ op ∈ ops, permittedOp op) →
      CountersConsistent (ops.foldl applyOp t) := by
  induction ops with
  | nil => intro t h _; exact h
  | cons op rest ih =>
    intro t h hall
    exact ih _ (counters_applyOp h (hall op (List.mem_cons_self op rest)))
      (fun o ho => hall o (List.mem_cons_of_mem op ho))

/-!  ## Claim C1 -/

/-- Claim C1.  The claim states that mutating the object returned by
`StatefulReplayController.getAgentState()`, including its nested
`memory` / `context` fields, never changes the underlying trace's stored
`stateSnapshot`.  This theorem evaluates the code at a concrete failing
input and shows the opposite: `getAgentState` returns
`{ ...this.agentState }`, a shallow spread whose `memory` reference is
the very reference stored in `trace.steps[0].stateSnapshot`, so a
caller-side write `returned.memory["k"] = "v"` changes the stored
snapshot's memory contents from `{}` to `{k: "v"}`. -/
theorem getAgentState_shallow_copy_shares_memory :
    Alias.returnedState.memoryRef = Alias.sampleObjState.memoryRef
    ∧ (Alias.sampleObjTrace.steps.map
        (fun s => Alias.readMemory Alias.sampleHeap s.stateSnapshot)) = [[]]
    ∧ (Alias.sampleObjTrace.steps.map
        (fun s => Alias.readMemory Alias.mutatedHeap s.stateSnapshot))
      = [[("k", Json.str "v")]] :=
  ⟨rfl, rfl, rfl⟩

/-!  ## Claim C2 -/

/-- Claim C2 counterexample.  The claim quantifies over every recording
operation including the generic `recordStep`; but `recordStep` appends a
step of the requested type without updating any counter, so one call
`recordStep('llm', ...)` on a fresh trace leaves `totalLLMCalls` at 0
while the trace holds one `'llm'` step. -/
theorem recordStep_llm_counter_mismatch :
    genericLLMTrace.metadata.totalLLMCalls = 0
    ∧ genericLLMTrace.steps.countP (fun s => s.stepType == "llm") = 1 :=
  ⟨rfl, rfl⟩

/-- Claim C2 amended.  After any sequence of recording operations on a fresh
trace in which every generic `recordStep` call uses a step type other
than `'llm'` / `'tool'` (the dedicated `recordLLMStep`, `recordToolStep`,
`recordDecisionStep`, `recordStateStep`, `recordErrorStep` are
unrestricted), `metadata.totalLLMCalls` equals the number of `'llm'`
steps and `metadata.totalToolCalls` equals the number of `'tool'` steps.
Since `ops` ranges over all such sequences, this holds after each
append (apply the theorem to every prefix). -/
theorem typed_record_ops_counters_consistent
    (traceId now agentId taskId : String) (ops : List RecordOp)
    (h : ∀ op ∈ ops, permittedOp op) :
    CountersConsistent (runRecorder traceId now agentId taskId ops) :=
  counters_foldl ops _ ⟨rfl, rfl⟩ h

/-- Claim C2 witness: a concrete llm + tool + generic-decision run keeps the
counters consistent. -/
theorem typed_record_ops_counters_consistent_witness :
    CountersConsistent (runRecorder "trace_1" "now" "agent" "task"
      [RecordOp.llm "t1" Json.null Json.null sampleState 5,
       RecordOp.tool "t2" "browse" Json.null Json.null sampleState 7,
       RecordOp.generic "decision" "t3" Json.null Json.null sampleState 1 none]) :=
  typed_record_ops_counters_consistent "trace_1" "now" "agent" "task" _
    (by
      intro op hop
      rcases List.mem_cons.mp hop with rfl | hop
      · trivial
      rcases List.mem_cons.mp hop with rfl | hop
      · trivial
      rcases List.mem_cons.mp hop with rfl | hop
      · exact ⟨by decide, by decide⟩
      · cases hop)

/-!  ## Claim C3 -/

/-- Claim C3.  For every trace built by any sequence of recording operations
starting from a fresh trace, `steps[i].stepNumber == i + 1` for every
index `i`: numbering is 1-based, strictly increasing and gapless.
Since `ops` ranges over all sequences, this holds after each append. -/
theorem recorder_steps_gapless
    (traceId now agentId taskId : String) (ops : List RecordOp) (i : Nat)
    (hi : i < (runRecorder traceId now agentId taskId ops).steps.length) :
    (((runRecorder traceId now agentId taskId ops).steps)[i]).stepNumber = i + 1 :=
  gapless_get (runRecorder_gapless traceId now agentId taskId ops) i hi

/-- Claim C3 witness: the second step of a concrete two-operation run has
`stepNumber = 2`. -/
theorem recorder_steps_gapless_witness :
    (((runRecorder "trace_1" "now" "agent" "task"
      [RecordOp.llm "t1" Json.null Json.null sampleState 5,
       RecordOp.error "t2" Json.null Json.null sampleState 2]).steps)[1]).stepNumber
      = 1 + 1 :=
  recorder_steps_gapless "trace_1" "now" "agent" "task" _ 1 (by decide)

/-!  ## Claim C4 -/

/-- Claim C4 counterexample.  On a 2-step trace, one `stepForward()` from
index 0 brings the cursor to the last index (`totalSteps - 1 = 1`), yet
`getStatus().progress = Math.round(1 / 2 * 100) = 50`, not 100: the
code's progress formula divides by `totalSteps`, so it does not reach
100 at the last index (for any trace shorter than 200 steps). -/
theorem progress_not_100_at_last_index :
    (Controller.stepForward (Controller.construct twoStepTrace "now")).1 = true
    ∧ (Controller.stepForward (Controller.construct twoStepTrace "now")).2.currentStepIndex
      = (Controller.stepForward (Controller.construct twoStepTrace "now")).2.trace.steps.length - 1
    ∧ Controller.progressOf (Controller.stepForward (Controller.construct twoStepTrace "now")).2 = 50
    ∧ Controller.progressOf (Controller.stepForward (Controller.construct twoStepTrace "now")).2 ≠ 100 :=
  ⟨rfl, rfl, rfl, by decide⟩

/-- Claim C4 amended.  `getStatus().progress` is non-decreasing under
`stepForward()`; for a non-empty trace with the cursor at the last
index it equals `round(100 * (totalSteps - 1) / totalSteps)`, i.e.
`(201 * totalSteps - 200) / (2 * totalSteps)` in exact arithmetic —
which equals 100 exactly when `totalSteps ≥ 200`; and for an empty
trace it is 0. -/
theorem progress_monotone_and_final (c : Controller) :
    Controller.progressOf c ≤ Controller.progressOf (Controller.stepForward c).2
    ∧ (0 < c.trace.steps.length → c.currentStepIndex = c.trace.steps.length - 1 →
        Controller.progressOf c
          = (201 * c.trace.steps.length - 200) / (2 * c.trace.steps.length))
    ∧ (0 < c.trace.steps.length →
        ((201 * c.trace.steps.length - 200) / (2 * c.trace.steps.length) = 100
          ↔ 200 ≤ c.trace.steps.length))
    ∧ (c.trace.steps.length = 0 → Controller.progressOf c = 0) := by
  refine ⟨?_, ?_, ?_, ?_⟩
  · unfold Controller.stepForward
    split
    · rename_i h
      have hn : 0 < c.trace.steps.length := by omega
      simp only [Controller.progressOf, Controller.getStatus,
        (updateAgentState_fields _).1, (updateAgentState_fields _).2.1]
      simp only [hn, if_pos]
      exact Nat.div_le_div_right (by omega)
    · exact Nat.le_refl _
  · intro hn hidx
    simp only [Controller.progressOf, Controller.getStatus, hn, if_pos, hidx]
    congr 1
    omega
  · intro hn
    constructor
    · intro heq
      have hle : 100 * (2 * c.trace.steps.length) ≤ 201 * c.trace.steps.length - 200 :=
        (Nat.le_div_iff_mul_le (by omega)).mp (Nat.le_of_eq heq.symm)
      omega
    · intro h200
      exact Nat.div_eq_of_lt_le (by omega) (by omega)
  · intro h0
    simp [Controller.progressOf, Controller.getStatus, h0]

/-- Claim C4 witness: a fresh controller on the non-empty one-step trace
`needleTrace` sits at the last index with progress
`(201 * 1 - 200) / (2 * 1) = 0`; for 1 step the last-index progress is
not 100 (`1 < 200`). -/
theorem progress_monotone_and_final_witness :
    Controller.progressOf (Controller.construct needleTrace "now")
      = (201 * (Controller.construct needleTrace "now").trace.steps.length - 200)
        / (2 * (Controller.construct needleTrace "now").trace.steps.length)
    ∧ ¬((201 * (Controller.construct needleTrace "now").trace.steps.length - 200)
        / (2 * (Controller.construct needleTrace "now").trace.steps.length) = 100) :=
  ⟨(progress_monotone_and_final (Controller.construct needleTrace "now")).2.1
      (by decide) rfl,
    fun h =>
      by
        have h200 := ((progress_monotone_and_final
          (Controller.construct needleTrace "now")).2.2.1 (by decide)).mp h
        have hl : (Controller.construct needleTrace "now").trace.steps.length = 1 := rfl
        omega⟩

/-!  ## Claim C5 -/

/-- Claim C5.  `jumpToStep(n)` succeeds iff `0 ≤ n < totalSteps`; outside that
range it returns `false` (it never throws — the model is a total
function) and leaves the whole controller state, in particular
`currentStepIndex`, unchanged.  Likewise `stepBackward()` at index 0 and
`stepForward()` at the last index return `false` and leave the
controller unchanged. -/
theorem navigation_boundary_safety (c : Controller) (n : Int) :
    ((Controller.jumpToStep c n).1 = true
      ↔ 0 ≤ n ∧ n < c.trace.steps.length)
    ∧ (¬(0 ≤ n ∧ n < (c.trace.steps.length : Int)) →
        Controller.jumpToStep c n = (false, c))
    ∧ (c.currentStepIndex = 0 → Controller.stepBackward c = (false, c))
    ∧ (0 < c.trace.steps.length →
        c.currentStepIndex = c.trace.steps.length - 1 →
        Controller.stepForward c = (false, c)) := by
  refine ⟨?_, ?_, ?_, ?_⟩
  · unfold Controller.jumpToStep
    split
    · rename_i h
      simp only [Bool.false_eq_true, false_iff]
      omega
    · rename_i h
      simp only [true_iff]
      omega
  · intro h
    unfold Controller.jumpToStep
    split
    · rfl
    · rename_i hg
      omega
  · intro h0
    simp [Controller.stepBackward, h0]
  · intro hn hidx
    simp [Controller.stepForward, hidx]

/-- Claim C5 witness: on a concrete 2-step trace, `jumpToStep(5)` fails and
leaves the controller untouched, `stepBackward()` at index 0 fails and
leaves it untouched, and `stepForward()` on a controller sitting at the
last index fails and leaves it untouched. -/
theorem navigation_boundary_safety_witness :
    Controller.jumpToStep (Controller.construct twoStepTrace "now") 5
      = (false, Controller.construct twoStepTrace "now")
    ∧ Controller.stepBackward (Controller.construct twoStepTrace "now")
      = (false, Controller.construct twoStepTrace "now")
    ∧ Controller.stepForward
        (Controller.jumpToStep (Controller.construct twoStepTrace "now") 1).2
      = (false, (Controller.jumpToStep (Controller.construct twoStepTrace "now") 1).2) :=
  ⟨(navigation_boundary_safety (Controller.construct twoStepTrace "now") 5).2.1
      (by decide),
    (navigation_boundary_safety (Controller.construct twoStepTrace "now") 5).2.2.1 rfl,
    (navigation_boundary_safety
        (Controller.jumpToStep (Controller.construct twoStepTrace "now") 1).2 0).2.2.2
      (by decide) rfl⟩

/-!  ## Claim C6 -/

/-- Claim C6 counterexample.  `reset()` delegates to `stop()`, which sets the
playback state to `'stopped'`, and `reset()` never sets `'idle'`: after
`reset()` from a freshly constructed controller the state is
`'stopped'`, not `'idle'` as the claim says. -/
theorem reset_state_is_stopped_not_idle :
    (Controller.reset (Controller.construct twoStepTrace "now")).replayState = "stopped"
    ∧ (Controller.reset (Controller.construct twoStepTrace "now")).replayState ≠ "idle" :=
  ⟨rfl, by decide⟩

/-- Claim C6 amended.  After `reset()` from any controller state the playback
state is `'stopped'` (not `'idle'`), `currentStepIndex` is 0, the
navigation history is empty, and for a non-empty trace `agentState`
equals the first step's `stateSnapshot`. -/
theorem reset_effects (c : Controller) :
    (Controller.reset c).replayState = "stopped"
    ∧ (Controller.reset c).currentStepIndex = 0
    ∧ Controller.getNavigationHistory (Controller.reset c) = []
    ∧ ∀ s rest, c.trace.steps = s :: rest →
        Controller.getAgentState (Controller.reset c) = s.stateSnapshot := by
  cases h : c.trace.steps with
  | nil =>
    refine ⟨?_, ?_, ?_, ?_⟩
    · simp [Controller.reset, Controller.stop, h]
    · simp [Controller.reset, Controller.stop, h]
    · simp [Controller.reset, Controller.stop, Controller.getNavigationHistory, h]
    · intro s rest heq
      cases heq
  | cons s rest =>
    refine ⟨?_, ?_, ?_, ?_⟩
    · simp [Controller.reset, Controller.stop, h]
    · simp [Controller.reset, Controller.stop, h]
    · simp [Controller.reset, Controller.stop, Controller.getNavigationHistory, h]
    · intro s2 rest2 heq
      injection heq with h1 h2
      subst h1
      simp [Controller.reset, Controller.stop, Controller.getAgentState, h]

/-- Claim C6 witness: resetting a controller over the concrete 2-step trace
yields agent state equal to the first step's snapshot, playback state
`'stopped'`, cursor 0 and empty history. -/
theorem reset_effects_witness :
    Controller.getAgentState (Controller.reset (Controller.construct twoStepTrace "now"))
      = (sampleStep 1 "llm").stateSnapshot
    ∧ (Controller.reset (Controller.construct twoStepTrace "now")).currentStepIndex = 0 :=
  ⟨(reset_effects (Controller.construct twoStepTrace "now")).2.2.2
      (sampleStep 1 "llm") [sampleStep 2 "tool"] rfl,
    (reset_effects (Controller.construct twoStepTrace "now")).2.1⟩

/-!  ## Claim C9 -/

/-- Claim C9 counterexample.  `jumpToEnd()` on a fresh controller over a
2-step trace moves the cursor from 0 to 1 but appends nothing to the
navigation history: index 1 was visited yet `getNavigationHistory()`
stays `[]`, so the history does not list every index the cursor has
visited. -/
theorem jumpToEnd_not_recorded_in_history :
    (Controller.jumpToEnd (Controller.construct twoStepTrace "now")).currentStepIndex = 1
    ∧ Controller.getNavigationHistory
        (Controller.jumpToEnd (Controller.construct twoStepTrace "now")) = [] :=
  ⟨rfl, rfl⟩

/-- Claim C9 amended.  Successful `stepForward()`, `stepBackward()` and
`jumpToStep(n)` append the newly visited index to the navigation history
in visit order, but `jumpToStart()` and `jumpToEnd()` move the cursor
without recording the visited index. -/
theorem navigation_history_recording (c : Controller) (n : Int) :
    ((Controller.stepForward c).1 = true →
      (Controller.stepForward c).2.stepHistory
        = c.stepHistory ++ [(Controller.stepForward c).2.currentStepIndex])
    ∧ ((Controller.stepBackward c).1 = true →
      (Controller.stepBackward c).2.stepHistory
        = c.stepHistory ++ [(Controller.stepBackward c).2.currentStepIndex])
    ∧ ((Controller.jumpToStep c n).1 = true →
      (Controller.jumpToStep c n).2.stepHistory
        = c.stepHistory ++ [(Controller.jumpToStep c n).2.currentStepIndex])
    ∧ (Controller.jumpToStart c).stepHistory = c.stepHistory
    ∧ (Controller.jumpToEnd c).stepHistory = c.stepHistory := by
  refine ⟨?_, ?_, ?_, ?_, ?_⟩
  · unfold Controller.stepForward
    split
    · intro _
      simp [(updateAgentState_fields _).2.1, (updateAgentState_fields _).2.2.2]
    · intro h
      cases h
  · unfold Controller.stepBackward
    split
    · intro _
      simp [(updateAgentState_fields _).2.1, (updateAgentState_fields _).2.2.2]
    · intro h
      cases h
  · unfold Controller.jumpToStep
    split
    · intro h
      cases h
    · intro _
      simp [(updateAgentState_fields _).2.1, (updateAgentState_fields _).2.2.2]
  · exact (updateAgentState_fields _).2.2.2
  · exact (updateAgentState_fields _).2.2.2

/-- Claim C9 witness: on the concrete 2-step trace, a successful
`stepForward()` records index 1, a successful `jumpToStep(0)` records
index 0, a subsequent `stepBackward()` records its new index, and
`jumpToEnd()` records nothing. -/
theorem navigation_history_recording_witness :
    (Controller.stepForward (Controller.construct twoStepTrace "now")).2.stepHistory
      = [] ++ [(Controller.stepForward (Controller.construct twoStepTrace "now")).2.currentStepIndex]
    ∧ (Controller.jumpToStep (Controller.construct twoStepTrace "now") 0).2.stepHistory
      = [] ++ [(Controller.jumpToStep (Controller.construct twoStepTrace "now") 0).2.currentStepIndex]
    ∧ (Controller.stepBackward
        (Controller.stepForward (Controller.construct twoStepTrace "now")).2).2.stepHistory
      = (Controller.stepForward (Controller.construct twoStepTrace "now")).2.stepHistory
        ++ [(Controller.stepBackward
            (Controller.stepForward (Controller.construct twoStepTrace "now")).2).2.currentStepIndex]
    ∧ (Controller.jumpToEnd (Controller.construct twoStepTrace "now")).stepHistory = [] :=
  ⟨(navigation_history_recording (Controller.construct twoStepTrace "now") 0).1 rfl,
    (navigation_history_recording (Controller.construct twoStepTrace "now") 0).2.2.1 rfl,
    (navigation_history_recording
      (Controller.stepForward (Controller.construct twoStepTrace "now")).2 0).2.1 rfl,
    (navigation_history_recording (Controller.construct twoStepTrace "now") 0).2.2.2.2⟩

/-!  ## Claim C8 -/

/-- Claim C8 counterexample.  On a one-step trace whose step's `input` is
`"aaa"`, `output` is `"bbb"` and whose state snapshot's `goal` is
`"needle"`, searching for `"needle"` selects the step in the Inspector
(which also scans the serialized `stateSnapshot` and `metadata`) but not
in the Controller (which scans only `JSON.stringify` of `input` and
`output`): the two `searchSteps` do not select the same set of steps. -/
theorem searchSteps_inspector_controller_differ :
    (StepInspector.searchSteps needleTrace "needle").length = 1
    ∧ (Controller.searchSteps (Controller.construct needleTrace "now") "needle").length = 0 :=
  ⟨rfl, rfl⟩

/-- Claim C8 amended.  `StepInspector.getStepsByType` and
`StatefulReplayController.getStepsByType` select exactly the same set of
steps (the Controller returns them as replay snapshots); the two
`searchSteps` methods, however, differ: the Inspector additionally
matches against the serialized state snapshot and metadata (and renders
string payloads unquoted), so the selected sets can disagree. -/
theorem getStepsByType_inspector_controller_agree
    (c : Controller) (stepType : String) :
    Controller.getStepsByType c stepType
      = (StepInspector.getStepsByType c.trace stepType).map snapshotOf :=
  rfl

/-!  ## Claim C10 -/

/-- Claim C10.  `compareSteps(a, b)` treats its arguments as 0-based array
indexes: for an in-range argument the returned snapshot on that side is
the step at that index, whose `stepNumber` is the index plus 1 on a
gapless trace; for any argument outside `[0, totalSteps)` it does not
throw (the model is total) and returns a `null` snapshot for that side
and, whenever either side is missing, an empty `stateDifferences`
list. -/
theorem compareSteps_index_semantics (c : Controller) (a b : Int)
    (hg : Gapless c.trace) :
    ((Controller.compareSteps c a b).step1.map ReplaySnapshot.stepNumber
      = if 0 ≤ a ∧ a < (c.trace.steps.length : Int) then some (a.toNat + 1) else none)
    ∧ ((Controller.compareSteps c a b).step2.map ReplaySnapshot.stepNumber
      = if 0 ≤ b ∧ b < (c.trace.steps.length : Int) then some (b.toNat + 1) else none)
    ∧ (¬(0 ≤ a ∧ a < (c.trace.steps.length : Int)) →
        (Controller.compareSteps c a b).step1 = none)
    ∧ (¬(0 ≤ b ∧ b < (c.trace.steps.length : Int)) →
        (Controller.compareSteps c a b).step2 = none)
    ∧ ((¬(0 ≤ a ∧ a < (c.trace.steps.length : Int))
        ∨ ¬(0 ≤ b ∧ b < (c.trace.steps.length : Int))) →
        (Controller.compareSteps c a b).stateDifferences = []) := by
  have key : ∀ n : Int,
      (0 ≤ n ∧ n < (c.trace.steps.length : Int) →
        ∃ hn : n.toNat < c.trace.steps.length,
          Controller.stepAt c.trace n = some (c.trace.steps[n.toNat]))
      ∧ (¬(0 ≤ n ∧ n < (c.trace.steps.length : Int)) →
        Controller.stepAt c.trace n = none) := by
    intro n
    constructor
    · intro ⟨h0, hlt⟩
      have hn : n.toNat < c.trace.steps.length := by omega
      refine ⟨hn, ?_⟩
      simp [Controller.stepAt, h0, List.getElem?_eq_getElem hn]
    · intro h
      unfold Controller.stepAt
      by_cases h0 : 0 ≤ n
      · have : ¬(n.toNat < c.trace.steps.length) := by omega
        simp [h0, List.getElem?_eq_none_iff]
        omega
      · simp [h0]
  refine ⟨?_, ?_, ?_, ?_, ?_⟩
  · by_cases ha : 0 ≤ a ∧ a < (c.trace.steps.length : Int)
    · obtain ⟨hn, heq⟩ := (key a).1 ha
      simp [Controller.compareSteps, heq, snapshotOf, ha, gapless_get hg _ hn]
    · simp [Controller.compareSteps, (key a).2 ha, ha]
  · by_cases hb : 0 ≤ b ∧ b < (c.trace.steps.length : Int)
    · obtain ⟨hn, heq⟩ := (key b).1 hb
      simp [Controller.compareSteps, heq, snapshotOf, hb, gapless_get hg _ hn]
    · simp [Controller.compareSteps, (key b).2 hb, hb]
  · intro ha
    simp [Controller.compareSteps, (key a).2 ha]
  · intro hb
    simp [Controller.compareSteps, (key b).2 hb]
  · intro hor
    rcases hor with ha | hb
    · simp [Controller.compareSteps, (key a).2 ha]
    · simp [Controller.compareSteps, (key b).2 hb]

/-- Claim C10 witness: on the concrete gapless 2-step trace,
`compareSteps(0, 5)` yields a snapshot numbered 1 on the left, `null` on
the right, and no state differences. -/
theorem compareSteps_index_semantics_witness :
    ((Controller.compareSteps (Controller.construct twoStepTrace "now") 0 5).step1.map
      ReplaySnapshot.stepNumber = some ((0 : Int).toNat + 1))
    ∧ (Controller.compareSteps (Controller.construct twoStepTrace "now") 0 5).step2 = none
    ∧ (Controller.compareSteps (Controller.construct twoStepTrace "now") 0 5).stateDifferences
      = [] := by
  have h := compareSteps_index_semantics (Controller.construct twoStepTrace "now") 0 5 rfl
  exact ⟨by
      have h1 := h.1
      rwa [if_pos (by decide)] at h1,
    h.2.2.2.1 (by decide),
    h.2.2.2.2 (Or.inr (by decide))⟩

/-!  ## Claim C7 -/

/-- Decoding a string array recovers the original strings. -/
theorem strsOf_map (l : List String) : strsOf (l.map Json.str) = some l := by
  induction l with
  | nil => rfl
  | cons a t ih => simp [strsOf, ih]

/-- Decoding the encoded `AgentState` recovers it. -/
theorem decodeAgentState_encode (s : AgentState) :
    decodeAgentState (encodeAgentState s) = some s := by
  obtain ⟨tid, st, cur, mem, ctx, goal, sub, comp, lo, sT, eT⟩ := s
  cases lo <;> cases sT <;> cases eT <;>
    simp [encodeAgentState, decodeAgentState, optField, jGet, asStr, asInt,
      asStrs, asObj, strsOf_map]

/-- Decoding the encoded `Step` recovers it. -/
theorem decodeStep_encode (s : Step) : decodeStep (encodeStep s) = some s := by
  obtain ⟨n, ty, ts, i, o, snap, dur, meta⟩ := s
  cases dur <;> cases meta <;>
    simp [encodeStep, decodeStep, optField, jGet, asStr, asInt,
      decodeAgentState_encode]

/-- Decoding the encoded step list recovers it. -/
theorem decodeSteps_map (l : List Step) :
    decodeSteps (l.map encodeStep) = some l := by
  induction l with
  | nil => rfl
  | cons s t ih => simp [decodeSteps, decodeStep_encode, ih]

/-- Decoding the encoded trace metadata recovers it. -/
theorem decodeTraceMetadata_encode (m : TraceMetadata) :
    decodeTraceMetadata (encodeTraceMetadata m) = some m := by
  obtain ⟨v, tools, llm, tool, rf⟩ := m
  cases rf <;>
    simp [encodeTraceMetadata, decodeTraceMetadata, optField, jGet, asStr,
      asInt, asStrs, strsOf_map]

/-- Claim C7.  Round trip: the trace read back from the artifact `save()`
writes is structurally equal to the trace that was saved, for every
trace (pretty-printing whitespace is discarded by parsing and is the
only non-semantic difference). -/
theorem load_save_roundtrip (t : Trace) :
    TraceRecorder.loadDoc (TraceRecorder.saveDoc t) = some t := by
  obtain ⟨tid, aid, task, start, endT, status, steps, fin, meta⟩ := t
  cases endT <;> cases fin <;>
    simp [TraceRecorder.saveDoc, TraceRecorder.loadDoc, encodeTrace,
      decodeTrace, optField, jGet, asStr, asArr, decodeSteps_map,
      decodeTraceMetadata_encode, decodeAgentState_encode]

end ACP
